import Mathlib

/-!
Shallow embedding of the memory-access classifier of
`src/llvm-passes/4.0.0/MemAccess.cpp` and the module/function driver of
`src/llvm-passes/4.0.0/include/builtin/CustomFunctionPass.h`, with theorems
checking the natural-language specification against the code.

Modelling conventions:
- An LLVM `Value` is either an anonymous SSA value (identified by a number)
  or an integer constant (`ConstantInt`) carrying its integer type's width.
- A `Ty` (LLVM `Type`) is either an integer type of a given bit width or
  some other type identified by a number; its in-memory store size is
  supplied by the `DataLayout`.
- The `DataLayout` of the enclosing module (reached in the source through
  `I.getModule()->getDataLayout()`, helper `getDL`) is passed explicitly
  to every function that uses it.
- Each instruction kind the two classifiers pattern-match on
  (`LoadInst`, `StoreInst`, `MemTransferInst`, `MemSetInst`,
  `AtomicCmpXchgInst`, `AtomicRMWInst`) is a constructor of `Instruction`
  holding exactly the operands the classifiers read; any other instruction
  (branch, call, arithmetic, ...) is `Instruction.other`.
-/

namespace MemAccessSpec

/-- An LLVM IR value: either an anonymous run-time value identified by a
number, or a `ConstantInt` of a given bit width holding a number. -/
inductive Value where
  | reg (id : Nat)
  | constInt (width : Nat) (n : Nat)
deriving DecidableEq, Repr

/-- An LLVM IR type: an integer type of a given bit width, or any other
type identified by a number. -/
inductive Ty where
  | int (width : Nat)
  | other (id : Nat)
deriving DecidableEq, Repr

/-- The target data layout (external collaborator): store size of a type in
bytes (`getTypeStoreSize`), the width of the largest legal integer type
(`getLargestLegalIntType`), and the natural alignment of a pointer value
(`Value::getPointerAlignment(DL)`). -/
structure DataLayout where
  typeStoreSize : Ty → Nat
  largestLegalIntWidth : Nat
  pointerAlignment : Value → Nat

/-- `DataLayout::getLargestLegalIntType` as a type. -/
def DataLayout.largestLegalIntType (dl : DataLayout) : Ty :=
  Ty.int dl.largestLegalIntWidth

/-- A `load` instruction: pointer operand, loaded type (`getType()`), and
declared alignment (`getAlignment()`, 0 when unspecified). -/
structure LoadInst where
  ptr : Value
  ty : Ty
  align : Nat
deriving DecidableEq, Repr

/-- A `store` instruction: pointer operand, value operand with its type,
and declared alignment (0 when unspecified). -/
structure StoreInst where
  ptr : Value
  val : Value
  valTy : Ty
  align : Nat
deriving DecidableEq, Repr

/-- A bulk memory-transfer intrinsic (`memcpy` / `memmove`): raw source and
destination pointers, run-time length operand, and alignment. -/
structure MemTransferInst where
  rawSource : Value
  rawDest : Value
  length : Value
  align : Nat
deriving DecidableEq, Repr

/-- A bulk memory-set intrinsic (`memset`): raw destination pointer,
run-time length operand, and alignment. -/
structure MemSetInst where
  rawDest : Value
  length : Value
  align : Nat
deriving DecidableEq, Repr

/-- An atomic compare-exchange instruction: pointer operand, compare
operand with its type, and new-value operand. -/
structure AtomicCmpXchgInst where
  ptr : Value
  cmpVal : Value
  cmpTy : Ty
  newVal : Value
deriving DecidableEq, Repr

/-- An atomic read-modify-write instruction: pointer operand and value
operand with its type. -/
structure AtomicRMWInst where
  ptr : Value
  valOp : Value
  valTy : Ty
deriving DecidableEq, Repr

/-- An LLVM instruction, restricted to the concrete kinds the classifiers
dispatch on; every unrelated instruction kind (branch, call, arithmetic,
...) is `other`. -/
inductive Instruction where
  | load (li : LoadInst)
  | store (si : StoreInst)
  | memTransfer (mt : MemTransferInst)
  | memSet (ms : MemSetInst)
  | cmpXchg (cx : AtomicCmpXchgInst)
  | atomicRMW (rmw : AtomicRMWInst)
  | other (id : Nat)
deriving DecidableEq, Repr

/-- `dyn_cast<LoadInst>` on an instruction. -/
def Instruction.asLoad : Instruction → Option LoadInst
  | .load li => some li
  | _ => none

/-- `dyn_cast<StoreInst>` on an instruction. -/
def Instruction.asStore : Instruction → Option StoreInst
  | .store si => some si
  | _ => none

/-- `dyn_cast<MemTransferInst>` on an instruction: succeeds exactly on the
bulk copy/move intrinsics. -/
def Instruction.asMemTransfer : Instruction → Option MemTransferInst
  | .memTransfer mt => some mt
  | _ => none

/-- The part of a `MemIntrinsic` the write classifier reads: `getRawDest`,
`getLength`, `getAlignment`. -/
structure MemIntrinsicView where
  rawDest : Value
  length : Value
  align : Nat
deriving DecidableEq, Repr

/-- `dyn_cast<MemIntrinsic>` on an instruction: succeeds on `memset` and on
the bulk transfer intrinsics (`MemTransferInst` is a `MemIntrinsic`). -/
def Instruction.asMemIntrinsic : Instruction → Option MemIntrinsicView
  | .memTransfer mt => some ⟨mt.rawDest, mt.length, mt.align⟩
  | .memSet ms => some ⟨ms.rawDest, ms.length, ms.align⟩
  | _ => none

/-- `dyn_cast<AtomicCmpXchgInst>` on an instruction. -/
def Instruction.asCmpXchg : Instruction → Option AtomicCmpXchgInst
  | .cmpXchg cx => some cx
  | _ => none

/-- `dyn_cast<AtomicRMWInst>` on an instruction. -/
def Instruction.asAtomicRMW : Instruction → Option AtomicRMWInst
  | .atomicRMW rmw => some rmw
  | _ => none

/-- `getInt(I, N)` from MemAccess.cpp: a `ConstantInt` of the target's
largest legal integer type holding `N`
(`ConstantInt::get(getDL(I).getLargestLegalIntType(I.getContext()), N)`). -/
def getInt (dl : DataLayout) (n : Nat) : Value :=
  Value.constInt dl.largestLegalIntWidth n

/-- Modelled from the spec: the `MemAccess` descriptor type is declared in
`MemAccess.h`, which is not among the source files; its shape is taken from
spec section 3 (fields `sourceInstruction`, `baseAddress`, `byteLength`,
`alignment`, `isRead`, and a `valid` flag where the absent state carries no
address/length/alignment), matching how MemAccess.cpp populates it. -/
inductive MemAccess where
  | absent
  | populated (source : Instruction) (base : Value) (length : Value)
      (alignment : Nat) (isRead : Bool)
deriving DecidableEq, Repr

/-- The `valid` flag of a descriptor: false exactly in the absent state. -/
def MemAccess.valid : MemAccess → Bool
  | .absent => false
  | .populated _ _ _ _ _ => true

/-- The `sourceInstruction` field of a populated descriptor. -/
def MemAccess.sourceInstruction : MemAccess → Option Instruction
  | .absent => none
  | .populated s _ _ _ _ => some s

/-- The `baseAddress` field of a populated descriptor. -/
def MemAccess.baseAddress : MemAccess → Option Value
  | .absent => none
  | .populated _ b _ _ _ => some b

/-- The `byteLength` field of a populated descriptor. -/
def MemAccess.byteLength : MemAccess → Option Value
  | .absent => none
  | .populated _ _ l _ _ => some l

/-- The `alignment` field of a populated descriptor. -/
def MemAccess.alignment : MemAccess → Option Nat
  | .absent => none
  | .populated _ _ _ a _ => some a

/-- The `isRead` flag of a populated descriptor. -/
def MemAccess.isRead : MemAccess → Option Bool
  | .absent => none
  | .populated _ _ _ _ r => some r

namespace MemRead

/-- `MemRead::MemRead(LoadInst&)`: base is the pointer operand, length is
the constant store size of the loaded type, alignment is the load's
declared alignment, role is read. -/
def ofLoad (dl : DataLayout) (li : LoadInst) : MemAccess :=
  MemAccess.populated (Instruction.load li) li.ptr
    (getInt dl (dl.typeStoreSize li.ty)) li.align true

/-- `MemRead::MemRead(MemTransferInst&)`: base is the raw source pointer,
length is the run-time length operand, alignment is the intrinsic's
alignment, role is read. -/
def ofMemTransfer (dl : DataLayout) (mt : MemTransferInst) : MemAccess :=
  MemAccess.populated (Instruction.memTransfer mt) mt.rawSource
    mt.length mt.align true

/-- `MemRead::MemRead(AtomicCmpXchgInst&)`: base is the pointer operand,
length is the constant store size of the compare operand's type, alignment
is the pointer operand's natural alignment under the data layout, role is
read. -/
def ofCmpXchg (dl : DataLayout) (cx : AtomicCmpXchgInst) : MemAccess :=
  MemAccess.populated (Instruction.cmpXchg cx) cx.ptr
    (getInt dl (dl.typeStoreSize cx.cmpTy)) (dl.pointerAlignment cx.ptr) true

/-- `MemRead::MemRead(AtomicRMWInst&)`: base is the pointer operand, length
is the constant store size of the value operand's type, alignment is the
pointer operand's natural alignment under the data layout, role is read. -/
def ofAtomicRMW (dl : DataLayout) (rmw : AtomicRMWInst) : MemAccess :=
  MemAccess.populated (Instruction.atomicRMW rmw) rmw.ptr
    (getInt dl (dl.typeStoreSize rmw.valTy)) (dl.pointerAlignment rmw.ptr) true

/-- `MemRead::Create(Instruction&)`: the generic entry point, a cascade of
`dyn_cast` checks for load, memory transfer, compare-exchange and
read-modify-write, returning the default (absent) descriptor when none
matches. -/
def Create (dl : DataLayout) (I : Instruction) : MemAccess :=
  match I.asLoad with
  | some li => ofLoad dl li
  | none =>
    match I.asMemTransfer with
    | some mt => ofMemTransfer dl mt
    | none =>
      match I.asCmpXchg with
      | some cx => ofCmpXchg dl cx
      | none =>
        match I.asAtomicRMW with
        | some rmw => ofAtomicRMW dl rmw
        | none => MemAccess.absent

/-- `MemRead::MemRead(Instruction&)`: starts from the default (absent)
descriptor and overwrites it through an else-if cascade of the same
`dyn_cast` checks as `Create`. -/
def ofInstruction (dl : DataLayout) (I : Instruction) : MemAccess :=
  let dflt := MemAccess.absent
  match I.asLoad with
  | some li => ofLoad dl li
  | none =>
    match I.asMemTransfer with
    | some mt => ofMemTransfer dl mt
    | none =>
      match I.asCmpXchg with
      | some cx => ofCmpXchg dl cx
      | none =>
        match I.asAtomicRMW with
        | some rmw => ofAtomicRMW dl rmw
        | none => dflt

/-- The set of instruction kinds the read classifier recognizes. -/
def recognizes (I : Instruction) : Bool :=
  I.asLoad.isSome || I.asMemTransfer.isSome || I.asCmpXchg.isSome ||
    I.asAtomicRMW.isSome

end MemRead

namespace MemWrite

/-- `MemWrite::MemWrite(StoreInst&)`: base is the pointer operand, length
is the constant store size of the stored value's type, alignment is the
store's declared alignment, role is write. -/
def ofStore (dl : DataLayout) (si : StoreInst) : MemAccess :=
  MemAccess.populated (Instruction.store si) si.ptr
    (getInt dl (dl.typeStoreSize si.valTy)) si.align false

/-- `MemWrite::MemWrite(MemIntrinsic&)`: base is the raw destination
pointer, length is the run-time length operand, alignment is the
intrinsic's alignment, role is write. -/
def ofMemIntrinsic (dl : DataLayout) (I : Instruction)
    (mi : MemIntrinsicView) : MemAccess :=
  MemAccess.populated I mi.rawDest mi.length mi.align false

/-- `MemWrite::MemWrite(AtomicCmpXchgInst&)`: same fields as the read
classifier's compare-exchange case, with the write role. -/
def ofCmpXchg (dl : DataLayout) (cx : AtomicCmpXchgInst) : MemAccess :=
  MemAccess.populated (Instruction.cmpXchg cx) cx.ptr
    (getInt dl (dl.typeStoreSize cx.cmpTy)) (dl.pointerAlignment cx.ptr) false

/-- `MemWrite::MemWrite(AtomicRMWInst&)`: same fields as the read
classifier's read-modify-write case, with the write role. -/
def ofAtomicRMW (dl : DataLayout) (rmw : AtomicRMWInst) : MemAccess :=
  MemAccess.populated (Instruction.atomicRMW rmw) rmw.ptr
    (getInt dl (dl.typeStoreSize rmw.valTy)) (dl.pointerAlignment rmw.ptr)
    false

/-- `MemWrite::Create(Instruction&)`: the generic entry point, a cascade of
`dyn_cast` checks for store, memory intrinsic (set or transfer),
compare-exchange and read-modify-write, returning the default (absent)
descriptor when none matches. -/
def Create (dl : DataLayout) (I : Instruction) : MemAccess :=
  match I.asStore with
  | some si => ofStore dl si
  | none =>
    match I.asMemIntrinsic with
    | some mi => ofMemIntrinsic dl I mi
    | none =>
      match I.asCmpXchg with
      | some cx => ofCmpXchg dl cx
      | none =>
        match I.asAtomicRMW with
        | some rmw => ofAtomicRMW dl rmw
        | none => MemAccess.absent

/-- `MemWrite::MemWrite(Instruction&)`: starts from the default (absent)
descriptor and overwrites it through an else-if cascade of the same
`dyn_cast` checks as `Create`. -/
def ofInstruction (dl : DataLayout) (I : Instruction) : MemAccess :=
  let dflt := MemAccess.absent
  match I.asStore with
  | some si => ofStore dl si
  | none =>
    match I.asMemIntrinsic with
    | some mi => ofMemIntrinsic dl I mi
    | none =>
      match I.asCmpXchg with
      | some cx => ofCmpXchg dl cx
      | none =>
        match I.asAtomicRMW with
        | some rmw => ofAtomicRMW dl rmw
        | none => dflt

/-- The set of instruction kinds the write classifier recognizes. -/
def recognizes (I : Instruction) : Bool :=
  I.asStore.isSome || I.asMemIntrinsic.isSome || I.asCmpXchg.isSome ||
    I.asAtomicRMW.isSome

end MemWrite

/-- True exactly on the two atomic instruction kinds (compare-exchange and
read-modify-write). -/
def Instruction.isAtomicAccess : Instruction → Bool
  | .cmpXchg _ => true
  | .atomicRMW _ => true
  | _ => false

/-- True exactly on the bulk memory-transfer kind (copy/move). -/
def Instruction.isMemTransferKind : Instruction → Bool
  | .memTransfer _ => true
  | _ => false

/-- An LLVM function as seen by the driver: its identity, whether it is a
declaration without a body (`Function::isDeclaration`), and whether it is
marked not to be instrumented. The `noInstrument` flag models
`isNoInstrument(&F)` from Common.h, which is not among the source files;
modelled from the spec: functions can be explicitly marked
"do not instrument". -/
structure Func where
  name : Nat
  isDeclaration : Bool
  noInstrument : Bool
deriving DecidableEq, Repr

/-- `shouldInstrument(Function&)` from CustomFunctionPass.h: false for a
declaration, false for a function marked no-instrument, true otherwise. -/
def shouldInstrument (F : Func) : Bool :=
  if F.isDeclaration then false
  else if F.noInstrument then false
  else true

/-- The virtual methods a concrete pass supplies to `CustomFunctionPass`:
`doInitialization`, `runOnFunction` and `doFinalization`, each reporting
whether it changed the module. A module is its list of functions. -/
structure PassCallbacks where
  doInit : List Func → Bool
  runOnFunction : Func → Bool
  doFinal : List Func → Bool

/-- The `for (Function &F : M)` loop of `runOnModule`: threads the
`Changed` flag, calls `runOnFunction` on each function that passes
`shouldInstrument`, and records the functions on which `runOnFunction`
was invoked, in order. -/
def runFunctions (cb : PassCallbacks) (changed : Bool) :
    List Func → Bool × List Func
  | [] => (changed, [])
  | F :: rest =>
    if shouldInstrument F then
      let c := changed || cb.runOnFunction F
      let r := runFunctions cb c rest
      (r.1, F :: r.2)
    else
      runFunctions cb changed rest

/-- `CustomFunctionPass::runOnModule(Module&)`: runs `doInitialization`,
loops over the module's functions guarded by `shouldInstrument`, runs
`doFinalization`, and returns the accumulated `Changed` flag together with
the trace of functions on which `runOnFunction` was invoked. -/
def runOnModule (cb : PassCallbacks) (M : List Func) : Bool × List Func :=
  let init := cb.doInit M
  let r := runFunctions cb init M
  (r.1 || cb.doFinal M, r.2)

/-- A concrete data layout for evaluating the classifiers on inputs:
integer types are sized to whole bytes, the largest legal integer width is
64 bits, and every pointer has natural alignment 8. -/
def exDL : DataLayout where
  typeStoreSize := fun t =>
    match t with
    | Ty.int w => (w + 7) / 8
    | Ty.other _ => 8
  largestLegalIntWidth := 64
  pointerAlignment := fun _ => 8

/-- A concrete bulk memory-transfer instruction: distinct source,
destination and run-time length values, alignment 4. -/
def exMT : MemTransferInst where
  rawSource := Value.reg 1
  rawDest := Value.reg 2
  length := Value.reg 3
  align := 4

/-- A concrete atomic compare-exchange instruction on a 32-bit value. -/
def exCX : AtomicCmpXchgInst where
  ptr := Value.reg 10
  cmpVal := Value.reg 11
  cmpTy := Ty.int 32
  newVal := Value.reg 12

/-- Concrete pass callbacks: the user logic reports a change on every
function; initialization and finalization change nothing. -/
def exCB : PassCallbacks where
  doInit := fun _ => false
  runOnFunction := fun _ => true
  doFinal := fun _ => false

/-- A concrete eligible function: has a body and is not marked. -/
def fA : Func where
  name := 0
  isDeclaration := false
  noInstrument := false

/-- A concrete declaration-only function. -/
def fB : Func where
  name := 1
  isDeclaration := true
  noInstrument := false

/-- The invocation trace of the function loop is the module filtered by
`shouldInstrument`, independent of the incoming `Changed` flag. -/
theorem runFunctions_trace (cb : PassCallbacks) (c : Bool) (M : List Func) :
    (runFunctions cb c M).2 = M.filter (fun F => shouldInstrument F) := by
  induction M generalizing c with
  | nil => rfl
  | cons F rest ih =>
    by_cases h : shouldInstrument F
    · simp [runFunctions, h, ih]
    · simp only [Bool.not_eq_true] at h
      simp [runFunctions, h, ih]

/-- C1: for every atomic compare-exchange instruction and every atomic
read-modify-write instruction, the read descriptor and the write
descriptor built from that same instruction have the same source
instruction, baseAddress, byteLength and alignment, and differ only in
the isRead flag (true for the read descriptor, false for the write
descriptor). -/
theorem atomic_read_write_descriptors_agree (dl : DataLayout)
    (cx : AtomicCmpXchgInst) (rmw : AtomicRMWInst) :
    ((MemRead.Create dl (Instruction.cmpXchg cx)).sourceInstruction =
        (MemWrite.Create dl (Instruction.cmpXchg cx)).sourceInstruction ∧
      (MemRead.Create dl (Instruction.cmpXchg cx)).baseAddress =
        (MemWrite.Create dl (Instruction.cmpXchg cx)).baseAddress ∧
      (MemRead.Create dl (Instruction.cmpXchg cx)).byteLength =
        (MemWrite.Create dl (Instruction.cmpXchg cx)).byteLength ∧
      (MemRead.Create dl (Instruction.cmpXchg cx)).alignment =
        (MemWrite.Create dl (Instruction.cmpXchg cx)).alignment ∧
      (MemRead.Create dl (Instruction.cmpXchg cx)).isRead = some true ∧
      (MemWrite.Create dl (Instruction.cmpXchg cx)).isRead = some false) ∧
    ((MemRead.Create dl (Instruction.atomicRMW rmw)).sourceInstruction =
        (MemWrite.Create dl (Instruction.atomicRMW rmw)).sourceInstruction ∧
      (MemRead.Create dl (Instruction.atomicRMW rmw)).baseAddress =
        (MemWrite.Create dl (Instruction.atomicRMW rmw)).baseAddress ∧
      (MemRead.Create dl (Instruction.atomicRMW rmw)).byteLength =
        (MemWrite.Create dl (Instruction.atomicRMW rmw)).byteLength ∧
      (MemRead.Create dl (Instruction.atomicRMW rmw)).alignment =
        (MemWrite.Create dl (Instruction.atomicRMW rmw)).alignment ∧
      (MemRead.Create dl (Instruction.atomicRMW rmw)).isRead = some true ∧
      (MemWrite.Create dl (Instruction.atomicRMW rmw)).isRead = some false) :=
  ⟨⟨rfl, rfl, rfl, rfl, rfl, rfl⟩, ⟨rfl, rfl, rfl, rfl, rfl, rfl⟩⟩

/-- C2 counterexample: a bulk memory-transfer instruction, which is
neither an atomic compare-exchange nor an atomic read-modify-write, also
gets a populated descriptor from both classifiers (the write classifier
accepts every memory intrinsic, which includes memory transfers), so
atomics are not the only kinds recognized by both. -/
theorem memtransfer_both_populated_not_atomic :
    (MemRead.Create exDL (Instruction.memTransfer exMT)).valid = true ∧
    (MemWrite.Create exDL (Instruction.memTransfer exMT)).valid = true ∧
    (Instruction.memTransfer exMT).isAtomicAccess = false :=
  ⟨rfl, rfl, rfl⟩

/-- C2 amended: atomic compare-exchange, atomic read-modify-write, and
bulk memory-transfer instructions are the only kinds for which both
classifiers produce a populated descriptor; for every other kind at most
one classifier does. -/
theorem both_populated_only_atomic_or_transfer (dl : DataLayout)
    (I : Instruction) :
    (MemRead.Create dl I).valid = true →
    (MemWrite.Create dl I).valid = true →
    (I.isAtomicAccess || I.isMemTransferKind) = true := by
  cases I <;>
    simp [MemRead.Create, MemWrite.Create, Instruction.asLoad,
      Instruction.asStore, Instruction.asMemTransfer,
      Instruction.asMemIntrinsic, Instruction.asCmpXchg,
      Instruction.asAtomicRMW, MemAccess.valid, Instruction.isAtomicAccess,
      Instruction.isMemTransferKind]

/-- Witness for the amended C2 at a concrete atomic compare-exchange
instruction under a concrete data layout. -/
theorem both_populated_only_atomic_or_transfer_witness :
    ((Instruction.cmpXchg exCX).isAtomicAccess ||
      (Instruction.cmpXchg exCX).isMemTransferKind) = true :=
  both_populated_only_atomic_or_transfer exDL (Instruction.cmpXchg exCX)
    rfl rfl

/-- C3: for every instruction whose kind is outside a classifier's
recognized set, that classifier's generic entry point returns the absent
descriptor, which carries no address, length or alignment; the entry
point is a total function and never fails. -/
theorem unrecognized_kind_absent (dl : DataLayout) (I : Instruction) :
    (MemRead.recognizes I = false →
      MemRead.Create dl I = MemAccess.absent) ∧
    (MemWrite.recognizes I = false →
      MemWrite.Create dl I = MemAccess.absent) := by
  cases I <;>
    simp [MemRead.Create, MemWrite.Create, MemRead.recognizes,
      MemWrite.recognizes, Instruction.asLoad, Instruction.asStore,
      Instruction.asMemTransfer, Instruction.asMemIntrinsic,
      Instruction.asCmpXchg, Instruction.asAtomicRMW]

/-- Witness for C3 at a concrete unrelated instruction (for example a
branch), on which both classifiers return the absent descriptor. -/
theorem unrecognized_kind_absent_witness :
    MemRead.Create exDL (Instruction.other 0) = MemAccess.absent ∧
    MemWrite.Create exDL (Instruction.other 0) = MemAccess.absent :=
  ⟨(unrecognized_kind_absent exDL (Instruction.other 0)).1 rfl,
    (unrecognized_kind_absent exDL (Instruction.other 0)).2 rfl⟩

/-- C4: for every plain load, the read classifier returns a populated
descriptor whose base is the pointer operand, whose byteLength is the
constant store size of the loaded type at the target's legal integer
width, whose alignment is the load's declared alignment (0 when none was
given), and whose role is read; symmetrically for plain stores and the
write classifier, with the byteLength keyed on the stored value's type. -/
theorem load_store_descriptor_fields (dl : DataLayout) (li : LoadInst)
    (si : StoreInst) :
    MemRead.Create dl (Instruction.load li) =
      MemAccess.populated (Instruction.load li) li.ptr
        (getInt dl (dl.typeStoreSize li.ty)) li.align true ∧
    MemWrite.Create dl (Instruction.store si) =
      MemAccess.populated (Instruction.store si) si.ptr
        (getInt dl (dl.typeStoreSize si.valTy)) si.align false :=
  ⟨rfl, rfl⟩

/-- C5: for every bulk memory-transfer instruction, the read descriptor's
byteLength is exactly the transfer's run-time length operand (the value
reference itself, not a rebuilt constant) and its base is the transfer's
raw source pointer. -/
theorem memtransfer_read_length_is_operand (dl : DataLayout)
    (mt : MemTransferInst) :
    (MemRead.Create dl (Instruction.memTransfer mt)).byteLength =
      some mt.length ∧
    (MemRead.Create dl (Instruction.memTransfer mt)).baseAddress =
      some mt.rawSource :=
  ⟨rfl, rfl⟩

/-- C6: for every atomic compare-exchange instruction both classifiers
produce a descriptor whose byteLength is an integer constant of the
target's largest legal integer width holding the store size of the
compared value's type, whose base is the pointer operand, and whose
alignment is the pointer operand's natural alignment under the data
layout; for every atomic read-modify-write instruction the same holds
with the byteLength keyed on the value operand's type. -/
theorem atomic_descriptor_fields (dl : DataLayout)
    (cx : AtomicCmpXchgInst) (rmw : AtomicRMWInst) :
    (MemRead.Create dl (Instruction.cmpXchg cx) =
        MemAccess.populated (Instruction.cmpXchg cx) cx.ptr
          (Value.constInt dl.largestLegalIntWidth
            (dl.typeStoreSize cx.cmpTy))
          (dl.pointerAlignment cx.ptr) true ∧
      MemWrite.Create dl (Instruction.cmpXchg cx) =
        MemAccess.populated (Instruction.cmpXchg cx) cx.ptr
          (Value.constInt dl.largestLegalIntWidth
            (dl.typeStoreSize cx.cmpTy))
          (dl.pointerAlignment cx.ptr) false) ∧
    (MemRead.Create dl (Instruction.atomicRMW rmw) =
        MemAccess.populated (Instruction.atomicRMW rmw) rmw.ptr
          (Value.constInt dl.largestLegalIntWidth
            (dl.typeStoreSize rmw.valTy))
          (dl.pointerAlignment rmw.ptr) true ∧
      MemWrite.Create dl (Instruction.atomicRMW rmw) =
        MemAccess.populated (Instruction.atomicRMW rmw) rmw.ptr
          (Value.constInt dl.largestLegalIntWidth
            (dl.typeStoreSize rmw.valTy))
          (dl.pointerAlignment rmw.ptr) false) :=
  ⟨⟨rfl, rfl⟩, ⟨rfl, rfl⟩⟩

/-- C7: classification is a pure, deterministic function of the
instruction and the data layout: two invocations of either generic entry
point on the same unmodified instruction return descriptors equal in
every field. -/
theorem classification_deterministic (dl : DataLayout) (I : Instruction) :
    MemRead.Create dl I = MemRead.Create dl I ∧
    MemWrite.Create dl I = MemWrite.Create dl I :=
  ⟨rfl, rfl⟩

/-- C8: the driver's runOnModule invokes runOnFunction exactly once per
occurrence of each function that is neither a declaration nor marked
no-instrument, and never invokes it on a declaration or a marked
function. -/
theorem runOnModule_invokes_exactly_eligible (cb : PassCallbacks)
    (M : List Func) (F : Func) :
    (shouldInstrument F = true →
      List.count F (runOnModule cb M).2 = List.count F M) ∧
    (shouldInstrument F = false → F ∉ (runOnModule cb M).2) := by
  have htrace : (runOnModule cb M).2 =
      M.filter (fun F => shouldInstrument F) := by
    simpa [runOnModule] using runFunctions_trace cb (cb.doInit M) M
  constructor
  · intro h
    rw [htrace]
    exact List.count_filter h
  · intro h hmem
    rw [htrace] at hmem
    have := (List.mem_filter.mp hmem).2
    simp [h] at this

/-- Witness for C8 on a concrete two-function module: the eligible
function is visited exactly once, the declaration never. -/
theorem runOnModule_invokes_exactly_eligible_witness :
    List.count fA (runOnModule exCB [fA, fB]).2 =
      List.count fA [fA, fB] ∧
    fB ∉ (runOnModule exCB [fA, fB]).2 :=
  ⟨(runOnModule_invokes_exactly_eligible exCB [fA, fB] fA).1 rfl,
    (runOnModule_invokes_exactly_eligible exCB [fA, fB] fB).2 rfl⟩

/-- C9: for every bulk memory-transfer instruction both classifiers
produce populated descriptors: the read descriptor's base is the
transfer's raw source pointer, the write descriptor's base is the raw
destination pointer, and the two descriptors share the same byteLength
(the run-time length operand) and the same alignment. -/
theorem memtransfer_dual_descriptors (dl : DataLayout)
    (mt : MemTransferInst) :
    (MemRead.Create dl (Instruction.memTransfer mt)).valid = true ∧
    (MemWrite.Create dl (Instruction.memTransfer mt)).valid = true ∧
    (MemRead.Create dl (Instruction.memTransfer mt)).baseAddress =
      some mt.rawSource ∧
    (MemWrite.Create dl (Instruction.memTransfer mt)).baseAddress =
      some mt.rawDest ∧
    (MemRead.Create dl (Instruction.memTransfer mt)).byteLength =
      (MemWrite.Create dl (Instruction.memTransfer mt)).byteLength ∧
    (MemRead.Create dl (Instruction.memTransfer mt)).alignment =
      (MemWrite.Create dl (Instruction.memTransfer mt)).alignment :=
  ⟨rfl, rfl, rfl, rfl, rfl, rfl⟩

/-- C10: for every instruction and data layout, the static factory
entry point and the dispatching constructor of each classifier produce
equal descriptors: MemRead.Create agrees with the MemRead constructor
taking a generic instruction, and likewise for MemWrite. -/
theorem create_matches_constructor (dl : DataLayout) (I : Instruction) :
    MemRead.Create dl I = MemRead.ofInstruction dl I ∧
    MemWrite.Create dl I = MemWrite.ofInstruction dl I := by
  refine ⟨?_, ?_⟩ <;> cases I <;> rfl

end MemAccessSpec
